import Mathlib

/-
Shallow embedding of the core of src/fastly-gorkbot.js (a Fastly Compute
Discord webhook): the signature verifier (lines 16-46), the hex decoder
(lines 49-55) and the POST /interactions handler (lines 66-132).

Modelling conventions:
* A JS string is modelled as its list of Unicode code points (JSStr).
  This is exact for strings without unpaired surrogates; every string the
  core manipulates (header ByteStrings, env values, TextDecoder output)
  is of that form.
* Fallible JS computations are modelled in Except Unit; Except.error ()
  stands for a thrown exception / rejected promise.
* The ed25519 verification primitive itself is an uninterpreted boolean
  oracle (EdVerify); the WebCrypto wrapper semantics around it (the raw
  key length check, the signature length check) are modelled from the
  WebCrypto / Secure Curves specification.
* Math.random()-driven selection is modelled by a parameter pick, the
  value of Math.floor(Math.random() * RESPONSES.length); the runtime
  guarantees pick < RESPONSES.length = 2.
-/

/-- A JavaScript string, as its sequence of Unicode code points. -/
abbrev JSStr := List Nat

/-- Embed a Lean string literal as a JSStr. -/
def jstr (s : String) : JSStr := List.map Char.toNat s.toList

/-! ## TextEncoder / Fetch text() (platform builtins used at lines 42 and 67)

`new TextEncoder().encode(s)` UTF-8-encodes `s`;
`await req.text()` runs the WHATWG "UTF-8 decode" algorithm on the raw
body bytes: strip a leading byte-order mark, then decode with U+FFFD
replacement of invalid sequences (maximal-subpart rule). -/

/-- UTF-8 encoding of one code point, as TextEncoder produces it
(an unpaired surrogate code point is encoded as U+FFFD). -/
def utf8EncodeCp (c : Nat) : List Nat :=
  if c < 0x80 then [c]
  else if c < 0x800 then [0xC0 + c / 64, 0x80 + c % 64]
  else if 0xD800 ≤ c ∧ c ≤ 0xDFFF then [0xEF, 0xBF, 0xBD]
  else if c < 0x10000 then [0xE0 + c / 4096, 0x80 + c / 64 % 64, 0x80 + c % 64]
  else [0xF0 + c / 0x40000, 0x80 + c / 4096 % 64, 0x80 + c / 64 % 64, 0x80 + c % 64]

/-- TextEncoder.encode on a whole string. -/
def utf8Encode : JSStr → List Nat
  | [] => []
  | c :: rest => utf8EncodeCp c ++ utf8Encode rest

/-- Is b a UTF-8 continuation byte inside the range lo..hi. -/
def contIn (lo hi b : Nat) : Bool := decide (lo ≤ b) && decide (b ≤ hi)

/-- One step of the WHATWG UTF-8 decoder with replacement: consume the
bytes of one scalar value starting at lead byte b (rest following), or
emit U+FFFD and resume at the offending byte (maximal-subpart rule). -/
def utf8Step (b : Nat) (rest : List Nat) : Nat × List Nat :=
  if b < 0x80 then (b, rest)
  else if contIn 0xC2 0xDF b then
    match rest with
    | [] => (0xFFFD, [])
    | b2 :: r2 =>
      if contIn 0x80 0xBF b2 then ((b - 0xC0) * 64 + (b2 - 0x80), r2)
      else (0xFFFD, b2 :: r2)
  else if contIn 0xE0 0xEF b then
    match rest with
    | [] => (0xFFFD, [])
    | b2 :: r2 =>
      if contIn (if b = 0xE0 then 0xA0 else 0x80) (if b = 0xED then 0x9F else 0xBF) b2 then
        match r2 with
        | [] => (0xFFFD, [])
        | b3 :: r3 =>
          if contIn 0x80 0xBF b3 then
            ((b - 0xE0) * 4096 + (b2 - 0x80) * 64 + (b3 - 0x80), r3)
          else (0xFFFD, b3 :: r3)
      else (0xFFFD, b2 :: r2)
  else if contIn 0xF0 0xF4 b then
    match rest with
    | [] => (0xFFFD, [])
    | b2 :: r2 =>
      if contIn (if b = 0xF0 then 0x90 else 0x80) (if b = 0xF4 then 0x8F else 0xBF) b2 then
        match r2 with
        | [] => (0xFFFD, [])
        | b3 :: r3 =>
          if contIn 0x80 0xBF b3 then
            match r3 with
            | [] => (0xFFFD, [])
            | b4 :: r4 =>
              if contIn 0x80 0xBF b4 then
                ((b - 0xF0) * 0x40000 + (b2 - 0x80) * 4096 + (b3 - 0x80) * 64 + (b4 - 0x80), r4)
              else (0xFFFD, b4 :: r4)
          else (0xFFFD, b3 :: r3)
      else (0xFFFD, b2 :: r2)
  else (0xFFFD, rest)

/-- Driver for the UTF-8 decoder; each step consumes at least one byte,
so fuel = length of the input suffices. -/
def utf8DecodeGo : Nat → List Nat → List Nat
  | _, [] => []
  | 0, _ => []
  | fuel + 1, b :: rest =>
    let st := utf8Step b rest
    st.1 :: utf8DecodeGo fuel st.2

/-- WHATWG UTF-8 decoder with replacement. -/
def utf8DecodeRepl (l : List Nat) : List Nat := utf8DecodeGo l.length l

/-- Remove a leading UTF-8 byte-order mark (part of WHATWG "UTF-8 decode"). -/
def stripBom : List Nat → List Nat
  | 0xEF :: 0xBB :: 0xBF :: rest => rest
  | l => l

/-- `await req.text()` (line 67): WHATWG "UTF-8 decode" of the raw body bytes. -/
def jsTextDecode (l : List Nat) : JSStr := utf8DecodeRepl (stripBom l)

/-! ## hexToBytes (lines 49-55) and the parseInt it relies on -/

/-- Value of one hexadecimal digit code point (0-9, A-F, a-f), as used by
JS parseInt with radix 16. -/
def hexDigitVal (c : Nat) : Option Nat :=
  if 48 ≤ c ∧ c ≤ 57 then some (c - 48)
  else if 65 ≤ c ∧ c ≤ 70 then some (c - 55)
  else if 97 ≤ c ∧ c ≤ 102 then some (c - 87)
  else none

/-- Is the code point a hexadecimal digit. -/
def isHexDigitCp (c : Nat) : Bool := (hexDigitVal c).isSome

/-- JS StrWhiteSpace code points that parseInt skips (common set). -/
def jsWhitespace (c : Nat) : Bool :=
  c = 9 || c = 10 || c = 11 || c = 12 || c = 13 || c = 32 || c = 160 || c = 65279

/-- parseInt(s, 16) on a one-character string: a hex digit parses to its
value, anything else gives NaN (none). -/
def hexTailVal (c : Nat) : Option Int :=
  match hexDigitVal c with
  | some d => some (d : Int)
  | none => none

/-- JS parseInt(s, 16) restricted to the two-character chunks
hex.substr(i, 2) that hexToBytes feeds it (ECMA-262 parseInt: skip
whitespace, optional sign, optional 0x/0X prefix, then the longest
prefix of hex digits; empty digits give NaN, modelled as none). -/
def jsParseIntHexPair (c1 c2 : Nat) : Option Int :=
  if jsWhitespace c1 then hexTailVal c2
  else if c1 = 43 then hexTailVal c2
  else if c1 = 45 then Option.map (fun v => -v) (hexTailVal c2)
  else if c1 = 48 ∧ (c2 = 120 ∨ c2 = 88) then none
  else
    match hexDigitVal c1 with
    | none => none
    | some d1 =>
      match hexDigitVal c2 with
      | none => some (d1 : Int)
      | some d2 => some ((16 * d1 + d2 : Nat) : Int)

/-- Storing a parseInt result into a Uint8Array slot: ToUint8 semantics,
NaN becomes 0, other values are taken modulo 256 (sign folded). -/
def toUint8 : Option Int → Nat
  | none => 0
  | some z => (z % 256).toNat

/-- hexToBytes (lines 49-55): the loop consumes the string two characters
at a time; for an odd-length string the final one-character chunk is
parsed but its write lands past the end of the Uint8Array of length
floor(length / 2) and is dropped. -/
def hexToBytes : JSStr → List Nat
  | c1 :: c2 :: rest => toUint8 (jsParseIntHexPair c1 c2) :: hexToBytes rest
  | _ => []

/-! ## The signature verifier (lines 16-46) -/

/-- The mathematical ed25519 verification primitive
(public key bytes, signature bytes, message bytes), uninterpreted. -/
abbrev EdVerify := List Nat → List Nat → List Nat → Bool

/-- crypto.subtle.importKey('raw', ..., 'Ed25519', ...) (lines 26-35):
per the WebCrypto Secure Curves spec it throws a DataError unless the
raw key data is exactly 32 bytes. -/
def jsImportKeyEd25519 (raw : List Nat) : Except Unit (List Nat) :=
  if raw.length = 32 then Except.ok raw else Except.error ()

/-- crypto.subtle.verify('Ed25519', ...) (lines 38-43): returns false
outright when the signature is not 64 bytes, otherwise performs the
ed25519 check; it does not throw. -/
def subtleVerifyEd25519 (ed : EdVerify) (key sig msg : List Nat) : Bool :=
  if sig.length = 64 then ed key sig msg else false

/-- JS falsiness of a possibly-absent string (headers.get returns null
when the header is missing; the empty string is also falsy). -/
def jsFalsyStr : Option JSStr → Bool
  | none => true
  | some s => s.isEmpty

/-- verifyDiscordSignature (lines 16-46), with the awaited promise chain
written as explicit Except plumbing: the early false return for missing
signature / timestamp / public key, then key import (which can throw),
then the subtle.verify call on the UTF-8 encoding of timestamp + body. -/
def verifyDiscordSignature (ed : EdVerify) (sigHeader tsHeader pubKeyEnv : Option JSStr)
    (body : JSStr) : Except Unit Bool :=
  if jsFalsyStr sigHeader || jsFalsyStr tsHeader || jsFalsyStr pubKeyEnv then
    Except.ok false
  else
    match jsImportKeyEd25519 (hexToBytes (pubKeyEnv.getD [])) with
    | Except.error e => Except.error e
    | Except.ok key =>
      Except.ok (subtleVerifyEd25519 ed key (hexToBytes (sigHeader.getD []))
        (utf8Encode (tsHeader.getD [] ++ body)))

/-- The byte string the handler actually verifies the signature over:
TextEncoder.encode(timestamp + body) at line 42, where body is the
text-decoded request body from line 67. -/
def requestMessageBytes (ts : JSStr) (rawBody : List Nat) : List Nat :=
  utf8Encode (ts ++ jsTextDecode rawBody)

/-! ## The interaction dispatcher and the POST /interactions route (lines 66-132) -/

/-- The two canned responses (lines 10-13). -/
def RESPONSES : List JSStr := [jstr "Yeh, nah", jstr "Nah, yeh"]

/-- The value of an interaction's data property, as far as the handler
inspects it: absent (undefined), null, a primitive (number or string
stand in for all non-null non-object values), or an object carrying the
optional name and custom_id properties the handler reads. -/
inductive JSData where
  | undef
  | null
  | num (n : Int)
  | str (s : JSStr)
  | obj (name : Option JSStr) (custom_id : Option JSStr)
deriving DecidableEq

/-- Reading data.name (lines 87, 100): throws a TypeError on undefined
or null, yields undefined (none) on a primitive or an object without the
property. -/
def JSData.getName : JSData → Except Unit (Option JSStr)
  | JSData.undef => Except.error ()
  | JSData.null => Except.error ()
  | JSData.num _ => Except.ok none
  | JSData.str _ => Except.ok none
  | JSData.obj n _ => Except.ok n

/-- Reading data.custom_id (line 118), same access semantics. -/
def JSData.getCustomId : JSData → Except Unit (Option JSStr)
  | JSData.undef => Except.error ()
  | JSData.null => Except.error ()
  | JSData.num _ => Except.ok none
  | JSData.str _ => Except.ok none
  | JSData.obj _ c => Except.ok c

/-- The parsed interaction payload: the type discriminant (a JSON
number) and the data property. -/
structure Interaction where
  type : Int
  data : JSData
deriving DecidableEq

/-- The data object of a response payload. -/
structure ResponseData where
  content : JSStr
  flags : Nat
deriving DecidableEq

/-- A response payload as the handler builds it: res.json({type: 1}) has
no data property at all. -/
structure ResponsePayload where
  type : Nat
  data : Option ResponseData
deriving DecidableEq

/-- What the route handler sends back: res.json(payload) (status 200) or
res.withStatus(status).send(text). -/
inductive HandlerResponse where
  | json (payload : ResponsePayload)
  | txt (status : Nat) (body : JSStr)
deriving DecidableEq

/-- Lines 113-131: the interaction.type === 3 check and the final 400;
the unmatched type === 2 branch falls through to exactly this code. -/
def dispatchTail (pick : Nat) (i : Interaction) : Except Unit HandlerResponse :=
  if i.type = 3 then
    match JSData.getCustomId i.data with
    | Except.error e => Except.error e
    | Except.ok cid =>
      if cid = some (jstr "ask_gork") then
        Except.ok (HandlerResponse.json
          ⟨4, some ⟨jstr "🎱 " ++ RESPONSES.getD pick [], 64⟩⟩)
      else Except.ok (HandlerResponse.txt 400 (jstr "Unknown interaction type"))
  else Except.ok (HandlerResponse.txt 400 (jstr "Unknown interaction type"))

/-- Lines 78-131: the branch on interaction.type after verification.
pick is Math.floor(Math.random() * RESPONSES.length); indexing is the
JS RESPONSES[pick] (in range for pick < 2, which the runtime guarantees). -/
def dispatchInteraction (pick : Nat) (i : Interaction) : Except Unit HandlerResponse :=
  if i.type = 1 then
    Except.ok (HandlerResponse.json ⟨1, none⟩)
  else if i.type = 2 then
    match JSData.getName i.data with
    | Except.error e => Except.error e
    | Except.ok name =>
      if name = some (jstr "gork") then
        Except.ok (HandlerResponse.json ⟨4, some ⟨RESPONSES.getD pick [], 0⟩⟩)
      else if name = some (jstr "gork-ephemeral") then
        Except.ok (HandlerResponse.json ⟨4, some ⟨RESPONSES.getD pick [], 64⟩⟩)
      else dispatchTail pick i
  else dispatchTail pick i

/-- The POST /interactions route (lines 66-132): decode the body text,
verify (a thrown verification error propagates), answer 401 on failed
verification, JSON.parse the body (parseJson parameter; a parse throw
propagates), then dispatch. -/
def postInteractions (ed : EdVerify) (pick : Nat)
    (parseJson : JSStr → Except Unit Interaction)
    (sigHeader tsHeader pubKeyEnv : Option JSStr) (rawBody : List Nat) :
    Except Unit HandlerResponse :=
  match verifyDiscordSignature ed sigHeader tsHeader pubKeyEnv (jsTextDecode rawBody) with
  | Except.error e => Except.error e
  | Except.ok isValid =>
    if isValid = false then
      Except.ok (HandlerResponse.txt 401 (jstr "Unauthorized"))
    else
      match parseJson (jsTextDecode rawBody) with
      | Except.error e => Except.error e
      | Except.ok interaction => dispatchInteraction pick interaction

/-! ## Concrete instances used by the witnesses -/

/-- An ed25519 oracle that accepts everything (any fixed oracle works for
the control-flow facts below). -/
def edTrue : EdVerify := fun _ _ _ => true

/-- An ed25519 oracle that rejects everything (a cryptographic mismatch). -/
def edFalse : EdVerify := fun _ _ _ => false

/-- A JSON.parse stand-in returning a fixed parsed interaction. -/
def parseConst (i : Interaction) : JSStr → Except Unit Interaction :=
  fun _ => Except.ok i

/-- 128 hex zeros: a signature header that decodes to 64 bytes. -/
def sigHexOk : JSStr := List.replicate 128 48

/-- 64 hex zeros: a public key that decodes to 32 bytes. -/
def pkHexOk : JSStr := List.replicate 64 48

/-- The timestamp header value made of the single character 1. -/
def tsOne : JSStr := [49]

/-! ## Shared lemmas -/

theorem utf8Encode_append (a b : JSStr) :
    utf8Encode (a ++ b) = utf8Encode a ++ utf8Encode b := by
  induction a with
  | nil => simp [utf8Encode]
  | cons c rest ih => simp [utf8Encode, ih]

theorem isHexDigitCp_ranges (c : Nat) (h : isHexDigitCp c = true) :
    (48 ≤ c ∧ c ≤ 57) ∨ (65 ≤ c ∧ c ≤ 70) ∨ (97 ≤ c ∧ c ≤ 102) := by
  unfold isHexDigitCp hexDigitVal at h
  split at h
  · omega
  · split at h
    · omega
    · split at h
      · omega
      · simp at h

theorem hexDigitVal_lt16 (c d : Nat) (h : hexDigitVal c = some d) : d < 16 := by
  unfold hexDigitVal at h
  split at h
  · simp only [Option.some.injEq] at h; omega
  · split at h
    · simp only [Option.some.injEq] at h; omega
    · split at h
      · simp only [Option.some.injEq] at h; omega
      · simp at h

theorem jsParseIntHexPair_hex (c1 c2 d1 d2 : Nat)
    (h1 : hexDigitVal c1 = some d1) (h2 : hexDigitVal c2 = some d2) :
    jsParseIntHexPair c1 c2 = some ((16 * d1 + d2 : Nat) : Int) := by
  have hr1 := isHexDigitCp_ranges c1 (by unfold isHexDigitCp; rw [h1]; rfl)
  have hr2 := isHexDigitCp_ranges c2 (by unfold isHexDigitCp; rw [h2]; rfl)
  have hw : jsWhitespace c1 = false := by
    unfold jsWhitespace; simp; omega
  have h43 : c1 ≠ 43 := by omega
  have h45 : c1 ≠ 45 := by omega
  have h0x : ¬(c1 = 48 ∧ (c2 = 120 ∨ c2 = 88)) := by omega
  simp [jsParseIntHexPair, hw, h43, h45, h0x, h1, h2]

theorem hexToBytes_cons_hex (c1 c2 : Nat) (rest : JSStr) (d1 d2 : Nat)
    (h1 : hexDigitVal c1 = some d1) (h2 : hexDigitVal c2 = some d2) :
    hexToBytes (c1 :: c2 :: rest) = (16 * d1 + d2) :: hexToBytes rest := by
  have hd1 := hexDigitVal_lt16 c1 d1 h1
  have hd2 := hexDigitVal_lt16 c2 d2 h2
  simp only [hexToBytes]
  rw [jsParseIntHexPair_hex c1 c2 d1 d2 h1 h2]
  simp only [toUint8]
  congr 1
  omega

/-- Lower-casing of an upper-case hex digit code point, identity elsewhere. -/
def lowerHexCp (c : Nat) : Nat := if 65 ≤ c ∧ c ≤ 70 then c + 32 else c

theorem hexDigitVal_lowerHexCp (c : Nat) :
    hexDigitVal (lowerHexCp c) = hexDigitVal c := by
  unfold lowerHexCp
  by_cases h : 65 ≤ c ∧ c ≤ 70
  · rw [if_pos h]
    obtain ⟨ha, hb⟩ := h
    interval_cases c <;> rfl
  · rw [if_neg h]

/-- The combined value of a pair of hex digit code points, as the spec
describes one output byte. -/
def hexPairVal (c1 c2 : Nat) : Nat :=
  16 * (hexDigitVal c1).getD 0 + (hexDigitVal c2).getD 0

theorem hexToBytes_pairs : ∀ cs : JSStr,
    (∀ c ∈ cs, isHexDigitCp c = true) → cs.length % 2 = 0 →
    (hexToBytes cs).length = cs.length / 2
    ∧ (∀ i, i < cs.length / 2 →
        (hexToBytes cs).getD i 0 = hexPairVal (cs.getD (2 * i) 0) (cs.getD (2 * i + 1) 0))
    ∧ hexToBytes (List.map lowerHexCp cs) = hexToBytes cs
  | [], _, _ => by
    refine ⟨rfl, ?_, rfl⟩
    intro i hi
    simp at hi
  | [c], _, he => by
    simp at he
  | c1 :: c2 :: rest, hh, he => by
    have h1 : isHexDigitCp c1 = true := hh c1 (by simp)
    have h2 : isHexDigitCp c2 = true := hh c2 (by simp)
    have hrest : ∀ c ∈ rest, isHexDigitCp c = true := fun c hc => hh c (by simp [hc])
    have herest : rest.length % 2 = 0 := by
      simp only [List.length_cons] at he; omega
    obtain ⟨ihlen, ihidx, ihmap⟩ := hexToBytes_pairs rest hrest herest
    obtain ⟨d1, hd1⟩ := Option.isSome_iff_exists.mp (by unfold isHexDigitCp at h1; exact h1)
    obtain ⟨d2, hd2⟩ := Option.isSome_iff_exists.mp (by unfold isHexDigitCp at h2; exact h2)
    have hcons := hexToBytes_cons_hex c1 c2 rest d1 d2 hd1 hd2
    refine ⟨?_, ?_, ?_⟩
    · rw [hcons]
      simp only [List.length_cons, List.length] at ihlen ⊢
      omega
    · intro i hi
      cases i with
      | zero =>
        rw [hcons]
        simp [hexPairVal, hd1, hd2]
      | succ j =>
        rw [hcons]
        have hj : j < rest.length / 2 := by
          simp only [List.length_cons] at hi; omega
        have h2j : 2 * (j + 1) = 2 * j + 1 + 1 := by ring
        rw [h2j]
        simpa using ihidx j hj
    · simp only [List.map_cons]
      rw [hexToBytes_cons_hex _ _ _ d1 d2 (by rw [hexDigitVal_lowerHexCp]; exact hd1)
        (by rw [hexDigitVal_lowerHexCp]; exact hd2), ihmap, hcons]

theorem postInteractions_ok_true (ed : EdVerify) (pick : Nat)
    (parseJson : JSStr → Except Unit Interaction)
    (sig ts pk : Option JSStr) (raw : List Nat) (i : Interaction)
    (hv : verifyDiscordSignature ed sig ts pk (jsTextDecode raw) = Except.ok true)
    (hp : parseJson (jsTextDecode raw) = Except.ok i) :
    postInteractions ed pick parseJson sig ts pk raw = dispatchInteraction pick i := by
  unfold postInteractions
  rw [hv, hp]
  rfl

theorem postInteractions_ok_false (ed : EdVerify) (pick : Nat)
    (parseJson : JSStr → Except Unit Interaction)
    (sig ts pk : Option JSStr) (raw : List Nat)
    (hv : verifyDiscordSignature ed sig ts pk (jsTextDecode raw) = Except.ok false) :
    postInteractions ed pick parseJson sig ts pk raw =
      Except.ok (HandlerResponse.txt 401 (jstr "Unauthorized")) := by
  unfold postInteractions
  rw [hv]
  rfl

/-! ## Claim C1 (error handling of the verifier) -/

/-- Claim C1 counterexample: verifyDiscordSignature does not always
return a boolean. With every header present and an ed25519 oracle in
hand, the public key hex "ab" decodes to a single byte, so the importKey
call throws and the returned promise rejects (modelled Except.error)
instead of resolving to false. -/
theorem verify_raises_on_short_key :
    verifyDiscordSignature edTrue (some sigHexOk) (some tsOne) (some (jstr "ab")) [] =
      Except.error () := rfl

/-- Claim C1 (amended): verifyDiscordSignature returns false when the
signature, timestamp or public key is absent or empty; when all three
are present and the decoded public key is 32 bytes long it returns the
boolean outcome of the WebCrypto verify call; but when the decoded
public key is not 32 bytes long it raises (importKey throws) rather
than returning false. -/
theorem verifyDiscordSignature_behavior (ed : EdVerify) (sig ts pk : Option JSStr)
    (body : JSStr) :
    ((jsFalsyStr sig || jsFalsyStr ts || jsFalsyStr pk) = true →
      verifyDiscordSignature ed sig ts pk body = Except.ok false)
    ∧ ((jsFalsyStr sig || jsFalsyStr ts || jsFalsyStr pk) = false →
        (hexToBytes (pk.getD [])).length = 32 →
        verifyDiscordSignature ed sig ts pk body =
          Except.ok (subtleVerifyEd25519 ed (hexToBytes (pk.getD []))
            (hexToBytes (sig.getD [])) (utf8Encode (ts.getD [] ++ body))))
    ∧ ((jsFalsyStr sig || jsFalsyStr ts || jsFalsyStr pk) = false →
        (hexToBytes (pk.getD [])).length ≠ 32 →
        verifyDiscordSignature ed sig ts pk body = Except.error ()) := by
  refine ⟨?_, ?_, ?_⟩
  · intro h
    unfold verifyDiscordSignature
    rw [if_pos h]
  · intro hf hlen
    have hc : ¬((jsFalsyStr sig || jsFalsyStr ts || jsFalsyStr pk) = true) := by simp [hf]
    unfold verifyDiscordSignature jsImportKeyEd25519
    rw [if_neg hc, if_pos hlen]
  · intro hf hlen
    have hc : ¬((jsFalsyStr sig || jsFalsyStr ts || jsFalsyStr pk) = true) := by simp [hf]
    unfold verifyDiscordSignature jsImportKeyEd25519
    rw [if_neg hc, if_neg hlen]

/-- Claim C1 witness: concrete instances of the amended behavior, on
absent inputs and on a well-formed 32-byte key. -/
theorem verifyDiscordSignature_behavior_witness :
    verifyDiscordSignature edTrue none none none [] = Except.ok false
    ∧ verifyDiscordSignature edTrue (some sigHexOk) (some tsOne) (some pkHexOk) [] =
        Except.ok (subtleVerifyEd25519 edTrue (hexToBytes ((some pkHexOk).getD []))
          (hexToBytes ((some sigHexOk).getD [])) (utf8Encode ((some tsOne).getD [] ++ []))) :=
  ⟨(verifyDiscordSignature_behavior edTrue none none none []).1 (by decide),
   (verifyDiscordSignature_behavior edTrue (some sigHexOk) (some tsOne) (some pkHexOk) []).2.1
     (by decide) (by decide)⟩

/-! ## Claim C2 (what bytes get signed) -/

/-- Claim C2 counterexample: the verified message is not the UTF-8
encoding of the timestamp followed by the raw body bytes. The handler
text-decodes the body and re-encodes it, so the invalid UTF-8 body byte
0xFF reaches the verifier as the replacement character's three bytes. -/
theorem requestMessage_not_raw_bytes :
    requestMessageBytes (jstr "0") [255] ≠ utf8Encode (jstr "0") ++ [255] := by decide

/-- Claim C2 (amended): the message the signature is verified over is
the UTF-8 encoding of the timestamp concatenated with the text-decoded
body; it equals UTF8(timestamp) followed by the raw body bytes exactly
when the body survives the UTF-8 decode/encode round trip (in
particular for every valid UTF-8 body without a leading byte-order
mark), and can differ otherwise. -/
theorem requestMessage_of_roundtrip (ts : JSStr) (rawBody : List Nat)
    (h : utf8Encode (jsTextDecode rawBody) = rawBody) :
    requestMessageBytes ts rawBody = utf8Encode ts ++ rawBody := by
  unfold requestMessageBytes
  rw [utf8Encode_append, h]

/-- Claim C2 witness: the two-byte JSON body of an empty object
round-trips, so its verified message is UTF8(timestamp) followed by the
raw body. -/
theorem requestMessage_of_roundtrip_witness :
    requestMessageBytes tsOne [123, 125] = utf8Encode tsOne ++ [123, 125] :=
  requestMessage_of_roundtrip tsOne [123, 125] (by decide)

/-! ## Claim C3 (unmatched payloads get the 400 error) -/

/-- A verified payload matched by no dispatcher rule: a type other than
1, 2 or 3; type 2 with a data object whose name is neither command; or
type 3 with a data object whose custom_id is not the button id. -/
def unmatchedShape (i : Interaction) : Prop :=
  (i.type ≠ 1 ∧ i.type ≠ 2 ∧ i.type ≠ 3)
  ∨ (i.type = 2 ∧ ∃ n c, i.data = JSData.obj n c
      ∧ n ≠ some (jstr "gork") ∧ n ≠ some (jstr "gork-ephemeral"))
  ∨ (i.type = 3 ∧ ∃ n c, i.data = JSData.obj n c ∧ c ≠ some (jstr "ask_gork"))

/-- Claim C3: for every verified payload that no dispatcher rule
matches, the endpoint answers HTTP 400 with the plain-text body
"Unknown interaction type". -/
theorem interactions_unmatched_400 (ed : EdVerify) (pick : Nat)
    (parseJson : JSStr → Except Unit Interaction)
    (sig ts pk : Option JSStr) (raw : List Nat) (i : Interaction)
    (hv : verifyDiscordSignature ed sig ts pk (jsTextDecode raw) = Except.ok true)
    (hp : parseJson (jsTextDecode raw) = Except.ok i)
    (hm : unmatchedShape i) :
    postInteractions ed pick parseJson sig ts pk raw =
      Except.ok (HandlerResponse.txt 400 (jstr "Unknown interaction type")) := by
  rw [postInteractions_ok_true ed pick parseJson sig ts pk raw i hv hp]
  rcases hm with ⟨h1, h2, h3⟩ | ⟨ht, n, c, hd, hn1, hn2⟩ | ⟨ht, n, c, hd, hc⟩
  · unfold dispatchInteraction dispatchTail
    rw [if_neg h1, if_neg h2, if_neg h3]
  · unfold dispatchInteraction dispatchTail
    rw [if_neg (show ¬(i.type = 1) by rw [ht]; decide), if_pos ht, hd]
    simp only [JSData.getName]
    rw [if_neg hn1, if_neg hn2, if_neg (show ¬(i.type = 3) by rw [ht]; decide)]
  · unfold dispatchInteraction dispatchTail
    rw [if_neg (show ¬(i.type = 1) by rw [ht]; decide),
        if_neg (show ¬(i.type = 2) by rw [ht]; decide), if_pos ht, hd]
    simp only [JSData.getCustomId]
    rw [if_neg hc]

/-- Claim C3 witness: a verified payload of type 99 gets the 400
"Unknown interaction type" answer. -/
theorem interactions_unmatched_400_witness :
    postInteractions edTrue 0 (parseConst ⟨99, JSData.undef⟩) (some sigHexOk) (some tsOne)
      (some pkHexOk) [] = Except.ok (HandlerResponse.txt 400 (jstr "Unknown interaction type")) :=
  interactions_unmatched_400 edTrue 0 (parseConst ⟨99, JSData.undef⟩) (some sigHexOk)
    (some tsOne) (some pkHexOk) [] ⟨99, JSData.undef⟩ (by rfl) (by rfl)
    (Or.inl ⟨by decide, by decide, by decide⟩)

/-! ## Claim C4 (missing header or key gives verify false and a 401) -/

/-- Claim C4: when the x-signature-ed25519 header, the
x-signature-timestamp header or the configured public key is missing,
verifyDiscordSignature returns false and the endpoint answers 401. -/
theorem verify_missing_inputs_401 (ed : EdVerify) (pick : Nat)
    (parseJson : JSStr → Except Unit Interaction)
    (sig ts pk : Option JSStr) (raw : List Nat)
    (h : sig = none ∨ ts = none ∨ pk = none) :
    verifyDiscordSignature ed sig ts pk (jsTextDecode raw) = Except.ok false
    ∧ postInteractions ed pick parseJson sig ts pk raw =
        Except.ok (HandlerResponse.txt 401 (jstr "Unauthorized")) := by
  have hfal : (jsFalsyStr sig || jsFalsyStr ts || jsFalsyStr pk) = true := by
    rcases h with rfl | rfl | rfl <;> simp [jsFalsyStr]
  have h1 : verifyDiscordSignature ed sig ts pk (jsTextDecode raw) = Except.ok false := by
    unfold verifyDiscordSignature
    rw [if_pos hfal]
  exact ⟨h1, postInteractions_ok_false ed pick parseJson sig ts pk raw h1⟩

/-- Claim C4 witness: a request with no signature header at all. -/
theorem verify_missing_inputs_401_witness :
    verifyDiscordSignature edTrue none (some tsOne) (some pkHexOk) (jsTextDecode []) =
      Except.ok false
    ∧ postInteractions edTrue 0 (parseConst ⟨1, JSData.undef⟩) none (some tsOne)
        (some pkHexOk) [] = Except.ok (HandlerResponse.txt 401 (jstr "Unauthorized")) :=
  verify_missing_inputs_401 edTrue 0 (parseConst ⟨1, JSData.undef⟩) none (some tsOne)
    (some pkHexOk) [] (Or.inl rfl)

/-! ## Claim C5 (uniformity of authentication failures) -/

/-- Claim C5 counterexample: two authentication-failing requests do not
always get the identical 401 answer. A request with no signature header
gets 401 Unauthorized, but a request whose configured public key hex
"ab" is malformed makes the handler raise (the importKey rejection
propagates), which is not the 401 response. -/
theorem auth_failure_responses_differ :
    postInteractions edTrue 0 (parseConst ⟨1, JSData.undef⟩) none (some tsOne) (some pkHexOk) []
      = Except.ok (HandlerResponse.txt 401 (jstr "Unauthorized"))
    ∧ postInteractions edTrue 0 (parseConst ⟨1, JSData.undef⟩) (some sigHexOk) (some tsOne)
        (some (jstr "ab")) [] = Except.error ()
    ∧ (Except.error () : Except Unit HandlerResponse)
        ≠ Except.ok (HandlerResponse.txt 401 (jstr "Unauthorized")) :=
  ⟨rfl, rfl, fun h => Except.noConfusion h⟩

/-- Claim C5 (amended): every pair of requests on which verification
completes and returns false gets the identical response, 401 with body
"Unauthorized", whatever the reason for the failure; but a malformed
public key makes verification throw instead, so the handler raises
rather than answering 401. -/
theorem auth_failures_uniform_401
    (ed1 ed2 : EdVerify) (pick1 pick2 : Nat)
    (p1 p2 : JSStr → Except Unit Interaction)
    (sig1 ts1 pk1 sig2 ts2 pk2 : Option JSStr) (raw1 raw2 : List Nat)
    (h1 : verifyDiscordSignature ed1 sig1 ts1 pk1 (jsTextDecode raw1) = Except.ok false)
    (h2 : verifyDiscordSignature ed2 sig2 ts2 pk2 (jsTextDecode raw2) = Except.ok false) :
    postInteractions ed1 pick1 p1 sig1 ts1 pk1 raw1
      = postInteractions ed2 pick2 p2 sig2 ts2 pk2 raw2
    ∧ postInteractions ed1 pick1 p1 sig1 ts1 pk1 raw1 =
        Except.ok (HandlerResponse.txt 401 (jstr "Unauthorized")) := by
  have e1 := postInteractions_ok_false ed1 pick1 p1 sig1 ts1 pk1 raw1 h1
  have e2 := postInteractions_ok_false ed2 pick2 p2 sig2 ts2 pk2 raw2 h2
  exact ⟨e1.trans e2.symm, e1⟩

/-- Claim C5 witness: a missing-header failure and a cryptographic
mismatch produce the same response. -/
theorem auth_failures_uniform_401_witness :
    postInteractions edTrue 0 (parseConst ⟨1, JSData.undef⟩) none (some tsOne) (some pkHexOk) []
      = postInteractions edFalse 1 (parseConst ⟨1, JSData.undef⟩) (some sigHexOk) (some tsOne)
          (some pkHexOk) [] :=
  (auth_failures_uniform_401 edTrue edFalse 0 1 (parseConst ⟨1, JSData.undef⟩)
    (parseConst ⟨1, JSData.undef⟩) none (some tsOne) (some pkHexOk) (some sigHexOk)
    (some tsOne) (some pkHexOk) [] [] (by rfl) (by rfl)).1

/-! ## Claim C6 (the two slash commands) -/

/-- Claim C6: a verified type-2 payload named gork yields a type-4
response whose content is one of the two pool strings with flags 0, and
gork-ephemeral yields the same shape with flags 64. -/
theorem dispatch_gork_commands (pick : Nat) (c : Option JSStr) (hp : pick < 2) :
    (dispatchInteraction pick ⟨2, JSData.obj (some (jstr "gork")) c⟩ =
        Except.ok (HandlerResponse.json ⟨4, some ⟨RESPONSES.getD pick [], 0⟩⟩)
      ∧ RESPONSES.getD pick [] ∈ RESPONSES)
    ∧ (dispatchInteraction pick ⟨2, JSData.obj (some (jstr "gork-ephemeral")) c⟩ =
        Except.ok (HandlerResponse.json ⟨4, some ⟨RESPONSES.getD pick [], 64⟩⟩)
      ∧ RESPONSES.getD pick [] ∈ RESPONSES) := by
  have hmem : RESPONSES.getD pick [] ∈ RESPONSES := by
    have h01 : pick = 0 ∨ pick = 1 := by omega
    rcases h01 with rfl | rfl <;> decide
  exact ⟨⟨rfl, hmem⟩, ⟨rfl, hmem⟩⟩

/-- Claim C6 witness: the gork command at the first random index. -/
theorem dispatch_gork_commands_witness :
    dispatchInteraction 0 ⟨2, JSData.obj (some (jstr "gork")) none⟩ =
      Except.ok (HandlerResponse.json ⟨4, some ⟨RESPONSES.getD 0 [], 0⟩⟩) :=
  (dispatch_gork_commands 0 none (by decide)).1.1

/-! ## Claim C7 (the ask_gork button) -/

/-- Claim C7: a verified type-3 payload with custom_id ask_gork yields a
type-4 response with flags 64 whose content is the fixed marker
followed by one of the two pool strings. -/
theorem dispatch_ask_gork_button (pick : Nat) (n : Option JSStr) (hp : pick < 2) :
    dispatchInteraction pick ⟨3, JSData.obj n (some (jstr "ask_gork"))⟩ =
      Except.ok (HandlerResponse.json ⟨4, some ⟨jstr "🎱 " ++ RESPONSES.getD pick [], 64⟩⟩)
    ∧ RESPONSES.getD pick [] ∈ RESPONSES := by
  have hmem : RESPONSES.getD pick [] ∈ RESPONSES := by
    have h01 : pick = 0 ∨ pick = 1 := by omega
    rcases h01 with rfl | rfl <;> decide
  exact ⟨rfl, hmem⟩

/-- Claim C7 witness: the button at the second random index. -/
theorem dispatch_ask_gork_button_witness :
    dispatchInteraction 1 ⟨3, JSData.obj none (some (jstr "ask_gork"))⟩ =
      Except.ok (HandlerResponse.json ⟨4, some ⟨jstr "🎱 " ++ RESPONSES.getD 1 [], 64⟩⟩) :=
  (dispatch_ask_gork_button 1 none (by decide)).1

/-! ## Claim C8 (hex decoding) -/

/-- Claim C8: on a string of hexadecimal characters of even length 2n,
hexToBytes returns n bytes, byte i being the value of the hex digit
pair at positions 2i and 2i+1, and upper-case hex digits decode exactly
as their lower-case counterparts. -/
theorem hexToBytes_hex_spec (cs : JSStr)
    (hhex : ∀ c ∈ cs, isHexDigitCp c = true) (heven : cs.length % 2 = 0) :
    (hexToBytes cs).length = cs.length / 2
    ∧ (∀ i, i < cs.length / 2 →
        (hexToBytes cs).getD i 0 = hexPairVal (cs.getD (2 * i) 0) (cs.getD (2 * i + 1) 0))
    ∧ hexToBytes (List.map lowerHexCp cs) = hexToBytes cs :=
  hexToBytes_pairs cs hhex heven

/-- Claim C8 witness: hexToBytes on the mixed-case string aB3f. -/
theorem hexToBytes_hex_spec_witness :
    (hexToBytes (jstr "aB3f")).length = (jstr "aB3f").length / 2
    ∧ (hexToBytes (jstr "aB3f")).getD 0 0 =
        hexPairVal ((jstr "aB3f").getD (2 * 0) 0) ((jstr "aB3f").getD (2 * 0 + 1) 0)
    ∧ hexToBytes (List.map lowerHexCp (jstr "aB3f")) = hexToBytes (jstr "aB3f") :=
  ⟨(hexToBytes_hex_spec (jstr "aB3f") (by decide) (by decide)).1,
   (hexToBytes_hex_spec (jstr "aB3f") (by decide) (by decide)).2.1 0 (by decide),
   (hexToBytes_hex_spec (jstr "aB3f") (by decide) (by decide)).2.2⟩

/-! ## Claim C9 (the ping handshake) -/

/-- Claim C9: a verified type-1 payload is answered with exactly the
JSON object of type 1 and no data field, whatever its data and whatever
the random index. -/
theorem dispatch_ping_pong (pick : Nat) (d : JSData) :
    dispatchInteraction pick ⟨1, d⟩ = Except.ok (HandlerResponse.json ⟨1, none⟩) := rfl

/-! ## Claim C10 (type 2 or 3 without a data object) -/

/-- Claim C10 counterexample: a type-2 payload whose data is the number
5 — not an object — does not make the handler raise: property access on
a non-null primitive yields undefined, so the dispatcher falls through
to the 400 result. -/
theorem dispatch_primitive_data_returns_400 :
    dispatchInteraction 0 ⟨2, JSData.num 5⟩ =
      Except.ok (HandlerResponse.txt 400 (jstr "Unknown interaction type")) := rfl

/-- Claim C10 (amended): for every verified payload of type 2 or 3
whose data is absent (undefined) or null, reading data.name or
data.custom_id throws, so the endpoint raises instead of returning the
400 unrecognized-interaction result; a non-null primitive data value
instead falls through to the 400 result. -/
theorem interactions_nullish_data_raises (ed : EdVerify) (pick : Nat)
    (parseJson : JSStr → Except Unit Interaction)
    (sig ts pk : Option JSStr) (raw : List Nat) (i : Interaction)
    (hv : verifyDiscordSignature ed sig ts pk (jsTextDecode raw) = Except.ok true)
    (hp : parseJson (jsTextDecode raw) = Except.ok i)
    (ht : i.type = 2 ∨ i.type = 3)
    (hd : i.data = JSData.undef ∨ i.data = JSData.null) :
    postInteractions ed pick parseJson sig ts pk raw = Except.error () := by
  rw [postInteractions_ok_true ed pick parseJson sig ts pk raw i hv hp]
  unfold dispatchInteraction dispatchTail
  rcases ht with ht | ht
  · rw [if_neg (show ¬(i.type = 1) by rw [ht]; decide), if_pos ht]
    rcases hd with hd | hd <;> (rw [hd]; rfl)
  · rw [if_neg (show ¬(i.type = 1) by rw [ht]; decide),
        if_neg (show ¬(i.type = 2) by rw [ht]; decide), if_pos ht]
    rcases hd with hd | hd <;> (rw [hd]; rfl)

/-- Claim C10 witness: a verified type-2 payload without data makes the
endpoint raise. -/
theorem interactions_nullish_data_raises_witness :
    postInteractions edTrue 0 (parseConst ⟨2, JSData.undef⟩) (some sigHexOk) (some tsOne)
      (some pkHexOk) [] = Except.error () :=
  interactions_nullish_data_raises edTrue 0 (parseConst ⟨2, JSData.undef⟩) (some sigHexOk)
    (some tsOne) (some pkHexOk) [] ⟨2, JSData.undef⟩ (by rfl) (by rfl)
    (Or.inl (by decide)) (Or.inl (by decide))
